import Mathlib

/-!
Verification development for the FhirViewMapper compiler core: a shallow
embedding of the ViewDefinition validator, the SQL preview generator, the
FHIRPath syntax validator, the legacy-shape normalizer, the fallback
ViewDefinition synthesis with its per-dialect containment rewrites, and the
JSON ingestion-repair fixups, each translated from the TypeScript source,
together with theorems settling the specified properties.

Conventions: JavaScript strings are modelled as Lean `String`; a field that
may be absent (or hold a non-string where a string is expected, which the
source treats identically through its `!x || typeof x !== "string"` guards)
is an `Option String`.  JavaScript truthiness of such a field is `truthy`
below: absent and the empty string are falsy.  Arrays are Lean lists; an
optional array field is an `Option (List _)` (JS arrays are always truthy,
even when empty, which the definitions below reproduce).
-/

/-- Single-quote character, kept out of string literals. -/
def sqChar : Char := Char.ofNat 39

/-- Double-quote character. -/
def dqChar : Char := Char.ofNat 34

/-- Opening-brace character. -/
def obChar : Char := Char.ofNat 123

/-- Closing-brace character. -/
def cbChar : Char := Char.ofNat 125

/-- JS truthiness of an optional string field: absent and "" are falsy. -/
def truthy : Option String → Bool
  | none => false
  | some s => !(s == "")

/-- `startsCL pat s`: `pat` is a leading run of `s` (both as char lists). -/
def startsCL : List Char → List Char → Bool
  | [], _ => true
  | _ :: _, [] => false
  | a :: as, b :: bs => a == b && startsCL as bs

/-- `containsCL pat s`: `pat` occurs inside `s` (JS `String.includes`). -/
def containsCL (pat : List Char) : List Char → Bool
  | [] => startsCL pat []
  | c :: cs => startsCL pat (c :: cs) || containsCL pat cs

/-- First occurrence split: text strictly before the match and text after it. -/
def splitFirstCL (pat : List Char) : List Char → Option (List Char × List Char)
  | [] => if pat.isEmpty then some ([], []) else none
  | c :: cs =>
    if startsCL pat (c :: cs) then some ([], (c :: cs).drop pat.length)
    else
      match splitFirstCL pat cs with
      | some (pre, post) => some (c :: pre, post)
      | none => none

/-- Replace every (non-overlapping, left-to-right) occurrence of `pat` by
`rep`, as JS `String.replace` with a global literal pattern; fuel-driven so
that closed terms reduce. -/
def replaceAllGo (pat rep : List Char) : Nat → List Char → List Char
  | 0, s => s
  | _, [] => []
  | n + 1, c :: cs =>
    if startsCL pat (c :: cs) && !pat.isEmpty then
      rep ++ replaceAllGo pat rep n ((c :: cs).drop pat.length)
    else
      c :: replaceAllGo pat rep n cs

/-- Split at every occurrence of the (nonempty) separator, as JS `split`. -/
def splitAllGo (sep : List Char) : Nat → List Char → List (List Char)
  | 0, s => [s]
  | n + 1, s =>
    match splitFirstCL sep s with
    | some (pre, post) => pre :: splitAllGo sep n post
    | none => [s]

/-- String wrapper for `containsCL`. -/
def subContains (pat s : String) : Bool := containsCL pat.data s.data

/-- String wrapper for `startsCL` (JS `String.startsWith`). -/
def startsStr (pat s : String) : Bool := startsCL pat.data s.data

/-- String wrapper for global literal replacement. -/
def replaceAllStr (pat rep s : String) : String :=
  String.mk (replaceAllGo pat.data rep.data s.data.length s.data)

/-- String wrapper for splitting on a literal separator. -/
def splitAllStr (sep s : String) : List String :=
  (splitAllGo sep.data s.data.length s.data).map String.mk

/-- ASCII whitespace recognizer used by the JS `\s` class on our inputs. -/
def isWS (c : Char) : Bool := c == ' ' || c == '\t' || c == '\n' || c == '\r'

/-- JS `String.trim`, restricted to ASCII whitespace. -/
def trimStr (s : String) : String :=
  String.mk (((s.data.dropWhile isWS).reverse.dropWhile isWS).reverse)

/-- JS `String.toLowerCase` on ASCII text. -/
def lowerStr (s : String) : String := String.mk (s.data.map Char.toLower)

/-- Character class of the id convention regex `[a-z0-9-]`. -/
def isKebabChar (c : Char) : Bool :=
  (Char.ofNat 97 ≤ c && c ≤ Char.ofNat 122) || c.isDigit || c == '-'

/-- The id convention check `/^[a-z0-9-]+$/` from the validator. -/
def idKebab (s : String) : Bool := !s.data.isEmpty && s.data.all isKebabChar

/-- The SQL identifier convention check `/^[a-zA-Z_][a-zA-Z0-9_]*$/`. -/
def sqlIdent (s : String) : Bool :=
  match s.data with
  | [] => false
  | c :: cs =>
    (c.isAlpha || c == '_') && cs.all (fun d => d.isAlpha || d.isDigit || d == '_')

/-!
## Structural validator (src/server/routes.ts, validateViewDefinition)

The document model mirrors the fields the validator inspects.  `whereList`
models the `where` property; the source also reports an error when `where`
is present but not an array, a state the typed model cannot represent, so
that one message never arises here.
-/

structure ValidationResult where
  isValid : Bool
  errors : List String
  warnings : List String
deriving Repr, DecidableEq

structure VCol where
  name : Option String
  path : Option String
  type : Option String
deriving Repr, DecidableEq

structure VJoin where
  type : Option String
  table : Option String
  condition : Option String
deriving Repr, DecidableEq

structure VSelect where
  column : Option (List VCol)
  forEach : Option String
  forEachOrNull : Option String
  join : Option VJoin
deriving Repr, DecidableEq

structure VWhere where
  expression : Option String
  description : Option String
deriving Repr, DecidableEq

structure VDoc where
  resourceType : Option String
  id : Option String
  name : Option String
  status : Option String
  resource : Option String
  select : Option (List VSelect)
  whereList : Option (List VWhere)
deriving Repr, DecidableEq

/-- The fixed vocabulary of declared column types accepted without warning. -/
def fhirTypes : List String :=
  ["string", "boolean", "integer", "decimal", "date", "dateTime", "time",
   "code", "uri", "canonical", "base64Binary", "instant", "oid", "id",
   "markdown", "unsignedInt", "positiveInt"]

/-- Per-column checks of `validateSelectItem`: errors and warnings, in push
order. -/
def validateColumn (pfx : String) (j : Nat) (c : VCol) : List String × List String :=
  let cp := pfx ++ ".column[" ++ toString j ++ "]"
  let nameIss : List String × List String :=
    if truthy c.name then
      (if sqlIdent (c.name.getD "") then ([], [])
       else ([], [cp ++ ".name should be a valid SQL identifier"]))
    else ([cp ++ ".name is required and must be a string"], [])
  let pathE :=
    if truthy c.path then []
    else [cp ++ ".path is required and must be a FHIRPath expression"]
  let typeW :=
    if truthy c.type && !(fhirTypes.contains (c.type.getD "")) then
      [cp ++ ".type \x27" ++ c.type.getD "" ++ "\x27 is not a standard FHIR data type"]
    else []
  (nameIss.1 ++ pathE, nameIss.2 ++ typeW)

/-- One `select` entry, as `validateSelectItem` (note the early returns when
`column` is not an array or is empty, and that the forEach/forEachOrNull
conflict is pushed to the WARNINGS array). -/
def validateSelectItem (i : Nat) (s : VSelect) : List String × List String :=
  let pfx := "select[" ++ toString i ++ "]"
  match s.column with
  | none => ([pfx ++ ".column must be an array"], [])
  | some [] => ([pfx ++ ".column array cannot be empty"], [])
  | some cols =>
    let per := cols.enum.map (fun p => validateColumn pfx p.1 p.2)
    let colE := (per.map Prod.fst).flatten
    let colW := (per.map Prod.snd).flatten
    let fewWarn :=
      if truthy s.forEach && truthy s.forEachOrNull then
        [pfx ++ ": forEach and forEachOrNull should not both be specified"]
      else []
    let joinE :=
      match s.join with
      | none => []
      | some j =>
        (if truthy j.type && ["inner", "left", "right", "full"].contains (j.type.getD "")
         then [] else [pfx ++ ".join.type must be one of: inner, left, right, full"])
        ++ (if truthy j.table then [] else [pfx ++ ".join.table is required for join configuration"])
        ++ (if truthy j.condition then [] else [pfx ++ ".join.condition is required for join configuration"])
    (colE ++ joinE, colW ++ fewWarn)

/-- One `where` entry, as `validateWhereItem`. -/
def validateWhereItem (i : Nat) (w : VWhere) : List String :=
  if truthy w.expression then []
  else ["where[" ++ toString i ++ "].expression is required and must be a FHIRPath expression"]

/-- Root-level required-field errors, in source order. -/
def rootErrors (v : VDoc) : List String :=
  (if v.resourceType == some "ViewDefinition" then []
   else ["resourceType must be \x27ViewDefinition\x27"])
  ++ (if truthy v.id then [] else ["id is required and must be a string"])
  ++ (if truthy v.name then [] else ["name is required and must be a string"])
  ++ (if (match v.status with
          | some st => ["draft", "active", "retired"].contains st
          | none => false) then []
      else ["status must be one of: draft, active, retired"])
  ++ (if truthy v.resource then []
      else ["resource is required and must be a valid FHIR resource type"])

/-- Root-level warning (id convention), in source order. -/
def rootWarnings (v : VDoc) : List String :=
  if truthy v.id && !idKebab (v.id.getD "") then
    ["id should only contain lowercase letters, numbers, and hyphens"]
  else []

/-- The select-array section of `validateViewDefinition`. -/
def selectIssues : Option (List VSelect) → List String × List String
  | none => (["select must be an array"], [])
  | some [] => (["select array cannot be empty - at least one column is required"], [])
  | some items =>
    let per := items.enum.map (fun p => validateSelectItem p.1 p.2)
    ((per.map Prod.fst).flatten, (per.map Prod.snd).flatten)

/-- The where-array section of `validateViewDefinition`. -/
def whereErrors : Option (List VWhere) → List String
  | none => []
  | some ws => (ws.enum.map (fun p => validateWhereItem p.1 p.2)).flatten

/-- `validateViewDefinition` from src/server/routes.ts: collects all errors
and warnings; `errors = []` defines validity. -/
def validateViewDefinition (v : VDoc) : ValidationResult :=
  let errors := rootErrors v ++ (selectIssues v.select).1 ++ whereErrors v.whereList
  let warnings := rootWarnings v ++ (selectIssues v.select).2
  ⟨errors.isEmpty, errors, warnings⟩

/-!
## SQL preview generator (src/server/routes.ts, generateSQLPreview)

Operates on the typed `ViewDefinition` interface: `select` is a list of
blocks each holding a `column` list, `where` an optional list of
`expression` strings.  Note that the source's `sqlPath.replace(/\./g, '.')`
replaces each dot by a dot and is therefore the identity; it is omitted.
-/

structure GCol where
  name : String
  path : String
deriving Repr, DecidableEq

structure GSelect where
  column : List GCol
deriving Repr, DecidableEq

structure GWhere where
  expression : String
deriving Repr, DecidableEq

structure SQLViewDef where
  resource : String
  select : List GSelect
  whereList : Option (List GWhere)
deriving Repr, DecidableEq

/-- One projected column of the SQL preview. -/
def gsqlColumn (c : GCol) : String :=
  let sqlPath :=
    if subContains "." c.path then
      "json_extract(resource, \x27$." ++ c.path ++ "\x27)"
    else c.path
  "  " ++ sqlPath ++ " AS " ++ c.name

/-- One `where` condition of the SQL preview: an `a = b` expression is
rewritten through `json_extract`, anything else passes through verbatim. -/
def gsqlCondition (w : GWhere) : String :=
  let condition :=
    if subContains " = " w.expression then
      let parts := splitAllStr " = " w.expression
      "json_extract(resource, \x27$." ++ trimStr (parts.getD 0 "") ++ "\x27) = "
        ++ trimStr (parts.getD 1 "")
    else w.expression
  "  " ++ condition

/-- `generateSQLPreview` from src/server/routes.ts. -/
def generateSQLPreview (v : SQLViewDef) : String :=
  let columns := (v.select.map (fun s => s.column.map gsqlColumn)).flatten
  let sql := "SELECT\n" ++ String.intercalate ",\n" columns ++ "\nFROM " ++ v.resource
  match v.whereList with
  | some ws =>
    if ws.length > 0 then
      sql ++ "\nWHERE\n" ++ String.intercalate " AND\n" (ws.map gsqlCondition)
    else sql
  | none => sql

/-!
## FHIRPath syntax validator (src/unnamed/part_001, validateFHIRPath)

Modelled for calls without a resourceType argument: the omitted
resource-specific branch only fills the `suggestions` field with advisory
notes and never changes `isValid` or `error`.
-/

structure FPValidation where
  isValid : Bool
  error : Option String
  suggestions : Option (List String)
deriving Repr, DecidableEq

/-- The character scan of `validateFHIRPath`: tracks quote state and the
parenthesis counter; stops early (first component `true`) at an unmatched
closing parenthesis, mirroring the `break`. -/
def fpScan : List Char → Int → Bool → Bool → Bool × Int × Bool × Bool
  | [], pc, qs, qd => (false, pc, qs, qd)
  | c :: cs, pc, qs, qd =>
    let qs1 := if c == sqChar && !qd then !qs else qs
    let qd1 := if c == dqChar && !qs1 then !qd else qd
    if !qs1 && !qd1 then
      if c == '(' then fpScan cs (pc + 1) qs1 qd1
      else if c == ')' then
        if pc - 1 < 0 then (true, pc - 1, qs1, qd1)
        else fpScan cs (pc - 1) qs1 qd1
      else fpScan cs pc qs1 qd1
    else fpScan cs pc qs1 qd1

/-- `validateFHIRPath` from src/unnamed/part_001: balanced-delimiter and
dot-placement checks; the first syntax error found becomes `error`. -/
def validateFHIRPath (path : String) : FPValidation :=
  if path == "" || trimStr path == "" then
    ⟨false, some "FHIRPath expression cannot be empty", none⟩
  else
    let t := trimStr path
    let scanned := fpScan t.data 0 false false
    let e1 := if scanned.1 then ["Unmatched closing parenthesis"] else []
    let e2 := if scanned.2.1 > 0 then ["Unmatched opening parenthesis"] else []
    let e3 := if scanned.2.2.1 || scanned.2.2.2 then ["Unmatched quote"] else []
    let e4 := if subContains ".." t then ["Double dots (..) are not valid in FHIRPath"] else []
    let e5 :=
      if startsStr "." t && !startsStr ".where(" t && !startsStr ".first(" t
          && !startsStr ".exists(" t then
        ["FHIRPath cannot start with a dot unless it\x27s a function"]
      else []
    match e1 ++ e2 ++ e3 ++ e4 ++ e5 with
    | [] => ⟨true, none, none⟩
    | e :: _ => ⟨false, some e, none⟩

example : validateFHIRPath "foo.bar(" =
    ⟨false, some "Unmatched opening parenthesis", none⟩ := by rfl

example : validateFHIRPath "name.family.first()" = ⟨true, none, none⟩ := by rfl

example : (validateFHIRPath "foo..bar").error =
    some "Double dots (..) are not valid in FHIRPath" := by rfl

example : generateSQLPreview ⟨"Patient", [], none⟩ = "SELECT\n\nFROM Patient" := by rfl

/-!
## Shape normalizer (src/server/routes.ts, transform route, legacy
definition conversion)

The transform route rewrites `transformationResult.viewDefinition` through
five consecutive steps, modelled here as five functions composed in source
order: default the `resourceType`, fold a legacy `definition` sub-object
into top-level properties (converting an object-shaped or flat-array
`select` to the canonical nested-block array), default the `resource` from
the profile, default a missing `select` to the empty array, and default or
re-key the `where` array.  `profileResourceType` and `profileUrl` are the
profile fields the route reads.
-/

structure NCol where
  name : Option String
  path : Option String
deriving Repr, DecidableEq

structure NEntry where
  name : Option String
  path : Option String
  column : Option (List NCol)
deriving Repr, DecidableEq

/-- A `select` value: the canonical/flat array shape, or the legacy object
shape keyed by numeric strings. -/
inductive NSelect where
  | arr : List NEntry → NSelect
  | obj : List (Nat × NEntry) → NSelect
deriving Repr, DecidableEq

structure NWhere where
  path : Option String
  fhirPath : Option String
deriving Repr, DecidableEq

structure NDef where
  resourceType : Option String
  select : Option NSelect
  whereList : Option (List NWhere)
deriving Repr, DecidableEq

structure NDoc where
  resourceType : Option String
  resource : Option String
  select : Option NSelect
  whereList : Option (List NWhere)
  definition : Option NDef
deriving Repr, DecidableEq

/-- Insert into a key-sorted association list (ascending numeric key). -/
def insertByKey (p : Nat × NEntry) : List (Nat × NEntry) → List (Nat × NEntry)
  | [] => [p]
  | q :: qs => if p.1 ≤ q.1 then p :: q :: qs else q :: insertByKey p qs

/-- Sort an association list by key, ascending. -/
def sortByKey : List (Nat × NEntry) → List (Nat × NEntry)
  | [] => []
  | p :: ps => insertByKey p (sortByKey ps)

/-- `Object.values` on an object keyed by numeric strings: JS enumerates
integer-like keys in ascending numeric order. -/
def objValues (ps : List (Nat × NEntry)) : List NEntry :=
  (sortByKey ps).map Prod.snd

/-- Step 1: `if (!viewDefinition.resourceType) resourceType = "ViewDefinition"`. -/
def fixRT (d : NDoc) : NDoc :=
  if truthy d.resourceType then d else { d with resourceType := some "ViewDefinition" }

/-- The legacy `definition.select` conversion: object shape to array, then
flat `{name, path}` array to one canonical `{column: [...]}` block (the
source tests `selectArray[0].path && !selectArray[0].column`). -/
def convertSelect (sv : NSelect) : NSelect :=
  let sel := match sv with
    | NSelect.obj ps => NSelect.arr (objValues ps)
    | NSelect.arr l => NSelect.arr l
  match sel with
  | NSelect.arr (h :: t) =>
    if truthy h.path && h.column.isNone then
      NSelect.arr [⟨none, none, some ((h :: t).map (fun it => ⟨it.name, it.path⟩))⟩]
    else NSelect.arr (h :: t)
  | s => s

/-- Step 2: fold the legacy `definition` sub-object into top-level
properties and delete it. -/
def applyDef (d : NDoc) : NDoc :=
  match d.definition with
  | none => d
  | some df =>
    { d with
      resource := if truthy df.resourceType then df.resourceType else d.resource
      select := match df.select with
        | some sv => some (convertSelect sv)
        | none => d.select
      whereList := match df.whereList with
        | some w => some w
        | none => d.whereList
      definition := none }

/-- Step 3: `if (!viewDefinition.resource) resource = profile.resourceType`. -/
def fixResource (profileResourceType : String) (d : NDoc) : NDoc :=
  if truthy d.resource then d else { d with resource := some profileResourceType }

/-- Step 4: `if (!viewDefinition.select) select = []` (the empty array is
truthy in JS, so a present empty array is kept). -/
def fixSelect (d : NDoc) : NDoc :=
  match d.select with
  | some _ => d
  | none => { d with select := some (NSelect.arr []) }

/-- Per-clause `where` re-keying: `{fhirPath}` without `path` becomes
`{path: fhirPath}` (other fields dropped); anything else is unchanged. -/
def whereFix (w : NWhere) : NWhere :=
  if truthy w.fhirPath && !truthy w.path then ⟨w.fhirPath, none⟩ else w

/-- The default `where` synthesized for a document with no `where`:
a single clause referencing the profile URL. -/
def defaultWhere (profileUrl : String) : List NWhere :=
  [⟨some ("meta.profile.contains(\x27" ++ profileUrl ++ "\x27)"), none⟩]

/-- Step 5: default a missing `where` to the profile-URL filter, otherwise
re-key each clause. -/
def fixWhere (profileUrl : String) (d : NDoc) : NDoc :=
  match d.whereList with
  | none => { d with whereList := some (defaultWhere profileUrl) }
  | some ws => { d with whereList := some (ws.map whereFix) }

/-- The full normalization pass of the transform route, in source order. -/
def normalizeDoc (profileResourceType profileUrl : String) (d : NDoc) : NDoc :=
  fixWhere profileUrl (fixSelect (fixResource profileResourceType (applyDef (fixRT d))))

/-!
## Fallback ViewDefinition and SQL (src/server/anthropic.ts,
transformProfileToViewDefinition, last-resort branch)

`columnSelection` is the per-column path-to-SQL rewriting used to build the
fallback query's column list; `fallbackColumns` is the `mainColumns`
construction (two standard columns, then primitive structure-definition
elements, then resource-type-specific extras); `rewriteContainment` is the
per-dialect containment-predicate rewrite applied to the generic query's
`WHERE meta.profile LIKE '%url%'` clause.
-/

/-- Skip a parenthesized call tail: consumes `[^)]+` then `)` and returns
the remaining text, or `none` when the regex would not match here. -/
def skipCallTail (s : List Char) : Option (List Char) :=
  let pre := s.takeWhile (fun c => !(c == ')'))
  let post := s.dropWhile (fun c => !(c == ')'))
  match post with
  | c :: rest => if pre.isEmpty then none else if c == ')' then some rest else none
  | [] => none

/-- Remove every occurrence of `callPat` followed by `[^)]+` and `)`, as the
source's `replace(/\.ofType\([^)]+\)/g, '')` and the analogous `join` rule. -/
def removeCallGo (callPat : List Char) : Nat → List Char → List Char
  | 0, s => s
  | _, [] => []
  | n + 1, c :: cs =>
    if startsCL callPat (c :: cs) then
      match skipCallTail ((c :: cs).drop callPat.length) with
      | some rest => removeCallGo callPat n rest
      | none => c :: removeCallGo callPat n cs
    else c :: removeCallGo callPat n cs

/-- String wrapper for `removeCallGo`. -/
def removeCallStr (callPat s : String) : String :=
  String.mk (removeCallGo callPat.data s.data.length s.data)

/-- One entry of the fallback query's `columnSelections` map: rewrites a
column's FHIRPath into the SQL fragment `<fragment> as <name>`. -/
def columnSelection (name path : String) : String :=
  if !(subContains "." path) || path == "getResourceKey()" || path == "resourceType" then
    (if path == "getResourceKey()" then "id" else path) ++ " as " ++ name
  else if subContains ".first()" path then
    replaceAllStr ".first()" "[0]" path ++ " as " ++ name
  else if subContains ".ofType(" path then
    removeCallStr ".ofType(" path ++ " as " ++ name
  else if subContains ".join(" path then
    removeCallStr ".join(" path ++ " as " ++ name
  else
    path ++ " as " ++ name

/-- A generated fallback column: output name and FHIRPath. -/
structure FCol where
  name : String
  path : String
deriving Repr, DecidableEq

/-- A structure-definition element as the fallback reads it: its dotted
path, its `max` cardinality when present, and its type codes (empty when
the element has no `type`). -/
structure ElemDef where
  path : String
  max : Option String
  typeCodes : List String
deriving Repr, DecidableEq

/-- The primitive type codes the fallback turns into columns. -/
def primitiveTypes : List String :=
  ["string", "code", "id", "boolean", "decimal", "integer", "date",
   "dateTime", "instant", "time", "uri", "url"]

/-- Columns derived from primitive structure-definition elements: skip the
base resource element, starred or deeply nested paths, and non-primitive
elements; otherwise strip the resource-type segment and derive name/path. -/
def elemCols (resourceType : String) (es : List ElemDef) : List FCol :=
  (es.map (fun e =>
    if e.path == resourceType then []
    else if e.max == some "*" || (splitAllStr "." e.path).length > 2 then []
    else if e.typeCodes.any (fun t => primitiveTypes.contains t) then
      match splitAllStr "." e.path with
      | _ :: r :: rest =>
        [FCol.mk (lowerStr (String.intercalate "_" (r :: rest)))
                 (String.intercalate "." (r :: rest))]
      | _ => []
    else [])).flatten

/-- Resource-type-specific extra columns of the fallback. -/
def specialCols (resourceType : String) : List FCol :=
  if resourceType == "Patient" then
    [⟨"name_given", "name.first().given.join(\x27 \x27)"⟩,
     ⟨"name_family", "name.first().family"⟩,
     ⟨"gender", "gender"⟩,
     ⟨"birth_date", "birthDate"⟩]
  else if resourceType == "Observation" then
    [⟨"status", "status"⟩,
     ⟨"category_coding_code", "category.first().coding.first().code"⟩,
     ⟨"code_coding_code", "code.coding.first().code"⟩,
     ⟨"code_coding_display", "code.coding.first().display"⟩,
     ⟨"effective_date_time", "effective.ofType(dateTime)"⟩,
     ⟨"value_quantity_value", "value.ofType(Quantity).value"⟩,
     ⟨"value_quantity_unit", "value.ofType(Quantity).unit"⟩,
     ⟨"subject_reference", "subject.reference"⟩]
  else if resourceType == "Condition" then
    [⟨"clinical_status", "clinicalStatus.coding.first().code"⟩,
     ⟨"verification_status", "verificationStatus.coding.first().code"⟩,
     ⟨"code_coding_code", "code.coding.first().code"⟩,
     ⟨"code_coding_display", "code.coding.first().display"⟩,
     ⟨"subject_reference", "subject.reference"⟩,
     ⟨"onset_date_time", "onset.ofType(dateTime)"⟩]
  else if resourceType == "Encounter" then
    [⟨"status", "status"⟩,
     ⟨"class_code", "class.code"⟩,
     ⟨"type_coding_code", "type.first().coding.first().code"⟩,
     ⟨"subject_reference", "subject.reference"⟩,
     ⟨"period_start", "period.start"⟩,
     ⟨"period_end", "period.end"⟩]
  else if resourceType == "Medication" || resourceType == "MedicationRequest" then
    [⟨"status", "status"⟩,
     ⟨"medication_coding_code", "medication.ofType(CodeableConcept).coding.first().code"⟩,
     ⟨"medication_coding_display", "medication.ofType(CodeableConcept).coding.first().display"⟩,
     ⟨"subject_reference", "subject.reference"⟩]
  else []

/-- The fallback's `mainColumns`: the two standard columns, then
element-derived columns, then resource-type extras, in push order. -/
def fallbackColumns (resourceType : String) (es : List ElemDef) : List FCol :=
  [⟨"id", "getResourceKey()"⟩, ⟨"resource_type", "resourceType"⟩]
    ++ elemCols resourceType es ++ specialCols resourceType

/-- The fallback document's `where` clause: one entry whose `path` contains
the caller-supplied profile URL. -/
def fallbackWherePath (profileUrl : String) : String :=
  "meta.profile.contains(\x27" ++ profileUrl ++ "\x27)"

/-- The generic fallback SQL text (column list already rendered). -/
def genericFallbackSql (viewName sqlColumns resourceType profileUrl : String) : String :=
  "-- Fallback SQL query\nCREATE VIEW " ++ viewName ++ " AS\nSELECT \n  "
    ++ sqlColumns ++ "\nFROM " ++ resourceType
    ++ "\nWHERE meta.profile LIKE \x27%" ++ profileUrl ++ "%\x27"

/-- The five fixed target dialects of the platform SQL map. -/
inductive Dialect where
  | databricks | bigquery | snowflake | postgres | sqlserver
deriving Repr, DecidableEq

/-- The replacement text of each dialect's containment rewrite, with the
captured URL substituted for `$1`. -/
def containmentTemplate : Dialect → String → String
  | Dialect.databricks, u => "WHERE array_contains(meta.profile, \x27" ++ u ++ "\x27)"
  | Dialect.bigquery, u => "WHERE \x27" ++ u ++ "\x27 IN UNNEST(meta.profile)"
  | Dialect.snowflake, u => "WHERE array_contains(meta.profile, \x27" ++ u ++ "\x27)"
  | Dialect.postgres, u => "WHERE meta.profile @> ARRAY[\x27" ++ u ++ "\x27]"
  | Dialect.sqlserver, u =>
    "WHERE JSON_QUERY(meta, \x27$.profile\x27) LIKE \x27%" ++ u ++ "%\x27"

/-- The literal head of the containment-predicate pattern
`/WHERE meta\.profile LIKE '%(.+?)%'/`. -/
def containHead : String := "WHERE meta.profile LIKE \x27%"

/-- Split at the first occurrence of `pat` at position at least one, as the
non-greedy nonempty capture `(.+?)` followed by `pat` would. -/
def splitFirstNonempty (pat : String) (s : List Char) : Option (List Char × List Char) :=
  match s with
  | [] => none
  | c :: cs =>
    match splitFirstCL pat.data cs with
    | some (pre, post) => some (c :: pre, post)
    | none => none

/-- One dialect's containment rewrite: the first
`WHERE meta.profile LIKE '%<url>%'` region is replaced by the dialect's
template; text without the pattern is returned unchanged.  (The generic
fallback query contains the pattern exactly once, at the end.) -/
def rewriteContainment (dl : Dialect) (sql : String) : String :=
  match splitFirstCL containHead.data sql.data with
  | none => sql
  | some (pre, rest) =>
    match splitFirstNonempty "%\x27" rest with
    | none => sql
    | some (url, post) =>
      String.mk pre ++ containmentTemplate dl (String.mk url) ++ String.mk post

example :
    rewriteContainment Dialect.databricks (genericFallbackSql "v" "id" "R" "u")
      = "-- Fallback SQL query\nCREATE VIEW v AS\nSELECT \n  id\nFROM R\nWHERE array_contains(meta.profile, \x27u\x27)" := by
  rfl

example : columnSelection "x" "name.family.first()" = "name.family[0] as x" := by rfl

example : columnSelection "x" "name[0].family" = "name[0].family as x" := by rfl

example :
    columnSelection "y" "effective.ofType(dateTime)" = "effective as y" := by rfl

example :
    columnSelection "z" "name.first().given.join(\x27 \x27)"
      = "name[0].given.join(\x27 \x27) as z" := by rfl

example : columnSelection "w" "address.first().line.join(\x27, \x27)"
      = "address[0].line.join(\x27, \x27) as w" := by rfl

/-!
## Ingestion repair JSON fixups (src/server/anthropic.ts, second parse
attempt)

`fixJson` is the balanced-append / trailing-comma / bare-key step: count
all `{` against `}` and append the missing `}`s, then likewise for `[`/`]`
(note the order: all missing braces are appended BEFORE all missing
brackets), then strip commas before a closer and quote bare object keys.
`parseJson` models `JSON.parse` on compact (whitespace-free) texts over
objects, arrays, escape-free strings, natural-number literals, booleans and
null; it demands full consumption of the input.
-/

/-- Strip `,<whitespace>*` immediately before the given closer, globally. -/
def stripCommaBefore (closer : Char) : Nat → List Char → List Char
  | 0, s => s
  | _, [] => []
  | n + 1, c :: cs =>
    if c == ',' then
      match cs.dropWhile isWS with
      | d :: ds =>
        if d == closer then closer :: stripCommaBefore closer n ds
        else c :: stripCommaBefore closer n cs
      | [] => c :: stripCommaBefore closer n cs
    else c :: stripCommaBefore closer n cs

/-- The bare-key identifier class `[a-zA-Z0-9_]`. -/
def isBareKeyChar (c : Char) : Bool := c.isAlpha || c.isDigit || c == '_'

/-- Quote bare object keys: rewrite `({|,)\s*key\s*:` to `({|,)"key":`. -/
def quoteKeys : Nat → List Char → List Char
  | 0, s => s
  | _, [] => []
  | n + 1, c :: cs =>
    if c == obChar || c == ',' then
      let rest1 := cs.dropWhile isWS
      let key := rest1.takeWhile isBareKeyChar
      let rest2 := (rest1.dropWhile isBareKeyChar).dropWhile isWS
      match key, rest2 with
      | _ :: _, d :: rest3 =>
        if d == ':' then
          c :: dqChar :: (key ++ dqChar :: ':' :: quoteKeys n rest3)
        else c :: quoteKeys n cs
      | _, _ => c :: quoteKeys n cs
    else c :: quoteKeys n cs

/-- The JSON fixup pipeline of the second parse attempt, in source order. -/
def fixJson (s : String) : String :=
  let l := s.data
  let l1 := l ++ List.replicate (l.count obChar - l.count cbChar) cbChar
  let l2 := l1 ++ List.replicate (l1.count '[' - l1.count ']') ']'
  let l3 := stripCommaBefore cbChar (l2.length + 1) l2
  let l4 := stripCommaBefore ']' (l3.length + 1) l3
  String.mk (quoteKeys (l4.length + 1) l4)

/-- A JSON value (the fragment `JSON.parse` can produce on our inputs). -/
inductive JVal where
  | jnull : JVal
  | jbool : Bool → JVal
  | jnum : Nat → JVal
  | jstr : String → JVal
  | jarr : List JVal → JVal
  | jobj : List (String × JVal) → JVal

/-- Parse an escape-free string body after the opening quote. -/
def parseStrBody (s : List Char) : Option (String × List Char) :=
  let body := s.takeWhile (fun c => !(c == dqChar))
  match s.dropWhile (fun c => !(c == dqChar)) with
  | c :: rest => if c == dqChar then some (String.mk body, rest) else none
  | [] => none

/-- Parse a nonempty run of decimal digits. -/
def parseNumBody (s : List Char) : Option (Nat × List Char) :=
  let digits := s.takeWhile Char.isDigit
  if digits.isEmpty then none
  else some (digits.foldl (fun acc c => acc * 10 + (c.toNat - 48)) 0,
             s.dropWhile Char.isDigit)

mutual

/-- Parse one JSON value; fuel-driven so closed terms reduce. -/
def parseVal : Nat → List Char → Option (JVal × List Char)
  | 0, _ => none
  | n + 1, s =>
    match s with
    | [] => none
    | c :: cs =>
      if c == dqChar then
        match parseStrBody cs with
        | some (str, rest) => some (JVal.jstr str, rest)
        | none => none
      else if c == '[' then
        match cs with
        | d :: ds => if d == ']' then some (JVal.jarr [], ds)
                     else parseArrItems n cs
        | [] => none
      else if c == obChar then
        match cs with
        | d :: ds => if d == cbChar then some (JVal.jobj [], ds)
                     else parseObjItems n cs
        | [] => none
      else if startsCL "true".data s then some (JVal.jbool true, s.drop 4)
      else if startsCL "false".data s then some (JVal.jbool false, s.drop 5)
      else if startsCL "null".data s then some (JVal.jnull, s.drop 4)
      else
        match parseNumBody s with
        | some (num, rest) => some (JVal.jnum num, rest)
        | none => none

/-- Parse the comma-separated items of an array, then the closing bracket. -/
def parseArrItems : Nat → List Char → Option (JVal × List Char)
  | 0, _ => none
  | n + 1, s =>
    match parseVal n s with
    | none => none
    | some (v, rest) =>
      match rest with
      | c :: cs =>
        if c == ']' then some (JVal.jarr [v], cs)
        else if c == ',' then
          match parseArrItems n cs with
          | some (JVal.jarr vs, rest2) => some (JVal.jarr (v :: vs), rest2)
          | _ => none
        else none
      | [] => none

/-- Parse the comma-separated members of an object, then the closing brace. -/
def parseObjItems : Nat → List Char → Option (JVal × List Char)
  | 0, _ => none
  | n + 1, s =>
    match s with
    | c :: cs =>
      if c == dqChar then
        match parseStrBody cs with
        | some (key, rest) =>
          match rest with
          | d :: ds =>
            if d == ':' then
              match parseVal n ds with
              | some (v, rest2) =>
                match rest2 with
                | e :: es =>
                  if e == cbChar then some (JVal.jobj [(key, v)], es)
                  else if e == ',' then
                    match parseObjItems n es with
                    | some (JVal.jobj kvs, rest3) => some (JVal.jobj ((key, v) :: kvs), rest3)
                    | _ => none
                  else none
                | [] => none
              | none => none
            else none
          | [] => none
        | none => none
      else none
    | [] => none

end

/-- `JSON.parse` on a compact text: one value consuming the whole input. -/
def parseJson (s : String) : Option JVal :=
  match parseVal (s.data.length + 1) s.data with
  | some (v, []) => some v
  | _ => none

example : fixJson "\x7b\"a\":[1" = "\x7b\"a\":[1\x7d]" := by rfl

example : (parseJson "\x7b\"a\":[1]\x7d").isSome = true := by rfl

example : (parseJson (fixJson "\x7b\"a\":[1")).isSome = false := by rfl

example : fixJson "[\x7b\"a\":1" = "[\x7b\"a\":1\x7d]" := by rfl

example : (parseJson "[\x7b\"a\":1\x7d]").isSome = true := by rfl

/-!
## Normalizer idempotence lemmas

Field-preservation facts for the five normalization steps, and pointwise
idempotence of the per-clause rewrites, feeding the idempotence theorem.
-/

/-- `applyDef` never changes `resourceType`. -/
theorem applyDef_resourceType (d : NDoc) : (applyDef d).resourceType = d.resourceType := by
  cases hd : d.definition <;> simp [applyDef, hd]

/-- `fixResource` never changes `resourceType`. -/
theorem fixResource_resourceType (p : String) (d : NDoc) :
    (fixResource p d).resourceType = d.resourceType := by
  unfold fixResource; split <;> rfl

/-- `fixSelect` never changes `resourceType`. -/
theorem fixSelect_resourceType (d : NDoc) : (fixSelect d).resourceType = d.resourceType := by
  cases hs : d.select <;> simp [fixSelect, hs]

/-- `fixWhere` never changes `resourceType`. -/
theorem fixWhere_resourceType (u : String) (d : NDoc) :
    (fixWhere u d).resourceType = d.resourceType := by
  cases hw : d.whereList <;> simp [fixWhere, hw]

/-- After `fixRT`, `resourceType` is truthy. -/
theorem fixRT_truthy (d : NDoc) : truthy (fixRT d).resourceType = true := by
  unfold fixRT; split
  case isTrue h => exact h
  case isFalse h => rfl

/-- `fixRT` is the identity on documents with truthy `resourceType`. -/
theorem fixRT_of_truthy (d : NDoc) (h : truthy d.resourceType = true) : fixRT d = d := by
  unfold fixRT; rw [h]; rfl

/-- After `applyDef`, the legacy `definition` is gone. -/
theorem applyDef_definition (d : NDoc) : (applyDef d).definition = none := by
  cases hd : d.definition <;> simp [applyDef, hd]

/-- `applyDef` is the identity on documents without a `definition`. -/
theorem applyDef_of_none (d : NDoc) (h : d.definition = none) : applyDef d = d := by
  unfold applyDef; rw [h]

/-- `fixResource` never changes `definition`. -/
theorem fixResource_definition (p : String) (d : NDoc) :
    (fixResource p d).definition = d.definition := by
  unfold fixResource; split <;> rfl

/-- `fixSelect` never changes `definition`. -/
theorem fixSelect_definition (d : NDoc) : (fixSelect d).definition = d.definition := by
  cases hs : d.select <;> simp [fixSelect, hs]

/-- `fixWhere` never changes `definition`. -/
theorem fixWhere_definition (u : String) (d : NDoc) :
    (fixWhere u d).definition = d.definition := by
  cases hw : d.whereList <;> simp [fixWhere, hw]

/-- `fixSelect` never changes `resource`. -/
theorem fixSelect_resource (d : NDoc) : (fixSelect d).resource = d.resource := by
  cases hs : d.select <;> simp [fixSelect, hs]

/-- `fixWhere` never changes `resource`. -/
theorem fixWhere_resource (u : String) (d : NDoc) :
    (fixWhere u d).resource = d.resource := by
  cases hw : d.whereList <;> simp [fixWhere, hw]

/-- Rebuilding an `NDoc` with its own `resource` is the identity. -/
theorem ndoc_eta_resource (x : NDoc) (v : Option String) (h : x.resource = v) :
    { x with resource := v } = x := by
  cases x; cases h; rfl

/-- Rebuilding an `NDoc` with its own `whereList` is the identity. -/
theorem ndoc_eta_whereList (x : NDoc) (v : Option (List NWhere)) (h : x.whereList = v) :
    { x with whereList := v } = x := by
  cases x; cases h; rfl

/-- After `fixResource`, `resource` is truthy or the profile default. -/
theorem fixResource_post_resource (p : String) (d : NDoc) :
    truthy (fixResource p d).resource = true ∨ (fixResource p d).resource = some p := by
  unfold fixResource; split
  case isTrue h => exact Or.inl h
  case isFalse h => exact Or.inr rfl

/-- `fixResource` is the identity on any document whose `resource` equals
a `fixResource` output. -/
theorem fixResource_stable (p : String) (x y : NDoc)
    (h : x.resource = (fixResource p y).resource) : fixResource p x = x := by
  rcases fixResource_post_resource p y with ht | he
  · rw [← h] at ht; unfold fixResource; rw [ht]; rfl
  · rw [he] at h
    unfold fixResource
    split
    case isTrue _ => rfl
    case isFalse _ => exact ndoc_eta_resource x (some p) h

/-- After `fixSelect`, `select` is present. -/
theorem fixSelect_post_select (d : NDoc) : (fixSelect d).select.isSome = true := by
  cases hs : d.select <;> simp [fixSelect, hs]

/-- `fixSelect` is the identity on documents with a present `select`. -/
theorem fixSelect_of_isSome (d : NDoc) (h : d.select.isSome = true) : fixSelect d = d := by
  unfold fixSelect
  cases hs : d.select
  · rw [hs] at h; cases h
  · rfl

/-- The per-clause `where` rewrite is idempotent. -/
theorem whereFix_idem (w : NWhere) : whereFix (whereFix w) = whereFix w := by
  by_cases h : (truthy w.fhirPath && !truthy w.path) = true
  · have h1 : whereFix w = ⟨w.fhirPath, none⟩ := by unfold whereFix; rw [if_pos h]
    rw [h1]; unfold whereFix; simp [truthy]
  · have h1 : whereFix w = w := by unfold whereFix; rw [if_neg h]
    rw [h1]; exact h1

/-- The default `where` clause is a fixed point of the rewrite map. -/
theorem defaultWhere_fixed (u : String) :
    (defaultWhere u).map whereFix = defaultWhere u := by
  simp [defaultWhere, whereFix, truthy]

/-- The `whereList` produced by `fixWhere` is a fixed point of the rewrite
map. -/
theorem fixWhere_post_whereList (u : String) (x : NDoc) :
    ∃ l, (fixWhere u x).whereList = some l ∧ l.map whereFix = l := by
  cases hw : x.whereList
  · exact ⟨defaultWhere u, by simp [fixWhere, hw], defaultWhere_fixed u⟩
  case some ws =>
    refine ⟨ws.map whereFix, by simp [fixWhere, hw], ?_⟩
    rw [List.map_map]
    exact List.map_congr_left (fun a _ => whereFix_idem a)

/-- `fixWhere` is the identity on documents whose `whereList` is already a
fixed point of the rewrite map. -/
theorem fixWhere_of_fixed (u : String) (x : NDoc) (l : List NWhere)
    (h : x.whereList = some l) (hl : l.map whereFix = l) : fixWhere u x = x := by
  simp only [fixWhere, h]
  rw [hl]
  exact ndoc_eta_whereList x (some l) h

/-- Applying `fixWhere` twice equals applying it once. -/
theorem fixWhere_post (u : String) (x : NDoc) :
    fixWhere u (fixWhere u x) = fixWhere u x := by
  obtain ⟨l, hl1, hl2⟩ := fixWhere_post_whereList u x
  exact fixWhere_of_fixed u _ l hl1 hl2

/-- `fixWhere` never changes `select`. -/
theorem fixWhere_select (u : String) (d : NDoc) : (fixWhere u d).select = d.select := by
  cases hw : d.whereList <;> simp [fixWhere, hw]

/-!
## Concrete documents used by the claim theorems
-/

/-- An otherwise fully valid document with two columns sharing one name. -/
def dupColDoc (nm p1 p2 : String) : VDoc :=
  ⟨some "ViewDefinition", some "dup-view", some "DupView", some "draft", some "Patient",
   some [⟨some [⟨some nm, some p1, none⟩, ⟨some nm, some p2, none⟩], none, none, none⟩],
   none⟩

/-- An otherwise fully valid document whose one block sets both `forEach`
and `forEachOrNull`. -/
def bothIterDoc (fe feon : String) : VDoc :=
  ⟨some "ViewDefinition", some "iter-view", some "IterView", some "draft", some "Patient",
   some [⟨some [⟨some "a", some "x", none⟩], some fe, some feon, none⟩],
   none⟩

/-- A document whose `select` is the empty array (validator model). -/
def emptySelDoc : VDoc :=
  ⟨some "ViewDefinition", some "empty-view", some "EmptyView", some "draft", some "Patient",
   some [], none⟩

/-- The same empty-select document in the SQL generator's typed interface. -/
def emptySelSqlDoc : SQLViewDef := ⟨"Patient", [], none⟩

/-- A document carrying the spec's unbalanced path `foo.bar(` as a column
path, in the SQL generator's typed interface. -/
def badPathSqlDoc : SQLViewDef := ⟨"Patient", [⟨[⟨"bad", "foo.bar("⟩]⟩], none⟩

/-!
## Claim theorems
-/

/-- C1, counterexample: a document whose flattened select contains two
columns named `a` validates with ZERO errors (and no warnings) — there is
no uniqueness error at all, refuting "exactly one uniqueness error naming
both locations". -/
theorem dup_names_zero_errors :
    validateViewDefinition (dupColDoc "a" "x" "y") = ⟨true, [], []⟩ := by rfl

/-- C1, amended: the validator performs no column-name uniqueness check;
for every duplicated (nonempty) name and nonempty paths the document with
two same-named columns validates with an empty error list. -/
theorem validate_accepts_duplicate_names (nm p1 p2 : String)
    (h0 : nm ≠ "") (h1 : p1 ≠ "") (h2 : p2 ≠ "") :
    (validateViewDefinition (dupColDoc nm p1 p2)).errors = [] := by
  have e0 : (nm == "") = false := beq_eq_false_iff_ne.mpr h0
  have e1 : (p1 == "") = false := beq_eq_false_iff_ne.mpr h1
  have e2 : (p2 == "") = false := beq_eq_false_iff_ne.mpr h2
  have henum : ([⟨some nm, some p1, none⟩, ⟨some nm, some p2, none⟩] : List VCol).enum
      = [(0, ⟨some nm, some p1, none⟩), (1, ⟨some nm, some p2, none⟩)] := rfl
  simp [validateViewDefinition, dupColDoc, rootErrors, selectIssues,
        validateSelectItem, validateColumn, whereErrors, truthy, henum, e0, e1, e2]
  constructor <;> split <;> rfl

/-- C1, witness for the amended theorem at a concrete input. -/
theorem validate_accepts_duplicate_names_witness :
    (validateViewDefinition (dupColDoc "code" "x" "y")).errors = [] :=
  validate_accepts_duplicate_names "code" "x" "y" (by decide) (by decide) (by decide)

/-- C2, counterexample: for the spec's own example `foo.bar(` the failure
message is a generic one that does not carry the offending substring, and
the SQL preview generator still emits a best-guess extraction fragment for
that very path — translation is not fail-closed. -/
theorem unbalanced_path_fragment_emitted :
    (validateFHIRPath "foo.bar(").error = some "Unmatched opening parenthesis"
    ∧ subContains "foo.bar(" "Unmatched opening parenthesis" = false
    ∧ generateSQLPreview badPathSqlDoc
        = "SELECT\n  json_extract(resource, \x27$.foo.bar(\x27) AS bad\nFROM Patient" :=
  ⟨rfl, rfl, rfl⟩

/-- C2, amended: `validateFHIRPath` does reject the unbalanced path
`foo.bar(` (isValid false), but with a generic message that does not name
the offending substring; fragment generation elsewhere is not gated on this
validation. -/
theorem unbalanced_path_generic_failure :
    validateFHIRPath "foo.bar(" =
      ⟨false, some "Unmatched opening parenthesis", none⟩ := by rfl

/-- C3: the transform route's shape normalization is idempotent — for every
document (legacy `definition` sub-object, object-keyed or flat-array
select, any combination, or already canonical) and any profile data,
normalizing twice equals normalizing once. -/
theorem normalize_idempotent (p u : String) (d : NDoc) :
    normalizeDoc p u (normalizeDoc p u d) = normalizeDoc p u d := by
  unfold normalizeDoc
  have hrt : truthy (fixWhere u (fixSelect (fixResource p (applyDef (fixRT d))))).resourceType
      = true := by
    rw [fixWhere_resourceType, fixSelect_resourceType, fixResource_resourceType,
        applyDef_resourceType]
    exact fixRT_truthy d
  have hdef : (fixWhere u (fixSelect (fixResource p (applyDef (fixRT d))))).definition
      = none := by
    rw [fixWhere_definition, fixSelect_definition, fixResource_definition]
    exact applyDef_definition _
  have hres : (fixWhere u (fixSelect (fixResource p (applyDef (fixRT d))))).resource
      = (fixResource p (applyDef (fixRT d))).resource := by
    rw [fixWhere_resource, fixSelect_resource]
  have hsel : (fixWhere u (fixSelect (fixResource p (applyDef (fixRT d))))).select.isSome
      = true := by
    rw [fixWhere_select]
    exact fixSelect_post_select _
  rw [fixRT_of_truthy _ hrt, applyDef_of_none _ hdef,
      fixResource_stable p _ (applyDef (fixRT d)) hres,
      fixSelect_of_isSome _ hsel]
  exact fixWhere_post u _

/-- C4, counterexample: the empty-select document is invalid, yet the SQL
preview generator still produces a SQL string for it — generation is not
gated on a zero-error validation. -/
theorem empty_select_sql_still_produced :
    (validateViewDefinition emptySelDoc).isValid = false
    ∧ generateSQLPreview emptySelSqlDoc = "SELECT\n\nFROM Patient" :=
  ⟨rfl, rfl⟩

/-- C4, amended: for every document whose `select` is the empty array the
validator reports at least one error (the SQL side of the original claim
fails: see the counterexample). -/
theorem empty_select_yields_error (v : VDoc) (h : v.select = some []) :
    (validateViewDefinition v).errors ≠ [] := by
  intro hc
  have hmem : "select array cannot be empty - at least one column is required"
      ∈ (validateViewDefinition v).errors := by
    simp [validateViewDefinition, h, selectIssues]
  rw [hc] at hmem
  exact absurd hmem (List.not_mem_nil _)

/-- C4, witness for the amended theorem at a concrete input. -/
theorem empty_select_yields_error_witness :
    (validateViewDefinition emptySelDoc).errors ≠ [] :=
  empty_select_yields_error emptySelDoc rfl

/-- C5, counterexample: a document whose block sets both `forEach` and
`forEachOrNull` validates with ZERO errors — the conflict surfaces only in
the warnings array, so it is not a blocking error and the document is
valid, refuting the claim. -/
theorem both_iteration_fields_valid_doc :
    validateViewDefinition (bothIterDoc "name" "name")
      = ⟨true, [], ["select[0]: forEach and forEachOrNull should not both be specified"]⟩ := by
  rfl

/-- C5, amended: setting both `forEach` and `forEachOrNull` (nonempty) is
reported as a WARNING with the positional locator, never as an error, and
the document remains valid. -/
theorem both_iteration_fields_warning (fe feon : String)
    (h1 : fe ≠ "") (h2 : feon ≠ "") :
    (validateViewDefinition (bothIterDoc fe feon)).errors = []
    ∧ (validateViewDefinition (bothIterDoc fe feon)).warnings
        = ["select[0]: forEach and forEachOrNull should not both be specified"] := by
  have e1 : (fe == "") = false := beq_eq_false_iff_ne.mpr h1
  have e2 : (feon == "") = false := beq_eq_false_iff_ne.mpr h2
  refine ⟨?_, ?_⟩
  · simp [validateViewDefinition, bothIterDoc, rootErrors, rootWarnings, selectIssues,
          validateSelectItem, validateColumn, whereErrors, truthy, e1, e2, idKebab,
          isKebabChar, sqlIdent]
  · simp [validateViewDefinition, bothIterDoc, rootErrors, rootWarnings, selectIssues,
          validateSelectItem, validateColumn, whereErrors, truthy, e1, e2, idKebab,
          isKebabChar, sqlIdent]
    rfl

/-- C5, witness for the amended theorem at a concrete input. -/
theorem both_iteration_fields_warning_witness :
    (validateViewDefinition (bothIterDoc "name" "address")).errors = []
    ∧ (validateViewDefinition (bothIterDoc "name" "address")).warnings
        = ["select[0]: forEach and forEachOrNull should not both be specified"] :=
  both_iteration_fields_warning "name" "address" (by decide) (by decide)

/-- C6, counterexample: on a generic fallback query carrying the
containment predicate, the databricks and snowflake rewrites yield the
IDENTICAL string (both `array_contains`), refuting pairwise syntactic
distinctness of the five dialect outputs. -/
theorem databricks_snowflake_rewrite_equal :
    rewriteContainment Dialect.databricks (genericFallbackSql "v" "id" "R" "u")
      = rewriteContainment Dialect.snowflake (genericFallbackSql "v" "id" "R" "u") := by
  rfl

/-- C6, amended: the rewrite table has exactly one rule per dialect (it is
a total function), the databricks and snowflake rules coincide on every
input, and on a query with a containment predicate the five outputs
collapse to exactly four distinct strings (all remaining pairs differ). -/
theorem containment_rewrites_four_distinct :
    (∀ sql, rewriteContainment Dialect.databricks sql
        = rewriteContainment Dialect.snowflake sql)
    ∧ rewriteContainment Dialect.databricks (genericFallbackSql "v" "id" "R" "u")
        ≠ rewriteContainment Dialect.bigquery (genericFallbackSql "v" "id" "R" "u")
    ∧ rewriteContainment Dialect.databricks (genericFallbackSql "v" "id" "R" "u")
        ≠ rewriteContainment Dialect.postgres (genericFallbackSql "v" "id" "R" "u")
    ∧ rewriteContainment Dialect.databricks (genericFallbackSql "v" "id" "R" "u")
        ≠ rewriteContainment Dialect.sqlserver (genericFallbackSql "v" "id" "R" "u")
    ∧ rewriteContainment Dialect.bigquery (genericFallbackSql "v" "id" "R" "u")
        ≠ rewriteContainment Dialect.postgres (genericFallbackSql "v" "id" "R" "u")
    ∧ rewriteContainment Dialect.bigquery (genericFallbackSql "v" "id" "R" "u")
        ≠ rewriteContainment Dialect.sqlserver (genericFallbackSql "v" "id" "R" "u")
    ∧ rewriteContainment Dialect.postgres (genericFallbackSql "v" "id" "R" "u")
        ≠ rewriteContainment Dialect.sqlserver (genericFallbackSql "v" "id" "R" "u") :=
  ⟨fun _ => rfl, by decide, by decide, by decide, by decide, by decide, by decide⟩

/-- C7, counterexample: translating `name.family.first()` and
`name[0].family` does NOT produce identical extraction fragments. -/
theorem first_vs_index_fragments_differ :
    columnSelection "x" "name.family.first()" ≠ columnSelection "x" "name[0].family" := by
  decide

/-- C7, amended: `.first()` is rewritten in place to a trailing `[0]`
(`name.family.first()` becomes fragment `name.family[0]`), while
`name[0].family` passes through unchanged — equivalent semantics are not
reflected in identical fragments. -/
theorem first_rewritten_in_place :
    columnSelection "x" "name.family.first()" = "name.family[0] as x"
    ∧ columnSelection "x" "name[0].family" = "name[0].family as x" :=
  ⟨rfl, rfl⟩

/-- C8, counterexample: for a Patient profile with no structure elements
the fallback document holds SIX columns, not only the two mandatory
standard ones. -/
theorem fallback_patient_six_columns :
    fallbackColumns "Patient" []
      = [⟨"id", "getResourceKey()"⟩, ⟨"resource_type", "resourceType"⟩,
         ⟨"name_given", "name.first().given.join(\x27 \x27)"⟩,
         ⟨"name_family", "name.first().family"⟩,
         ⟨"gender", "gender"⟩, ⟨"birth_date", "birthDate"⟩] := by
  rfl

/-- C8, amended: the synthesized fallback always BEGINS with the two
standard columns (`id` from `getResourceKey()` and `resource_type` from
`resourceType`); element-derived and resource-type-specific columns follow,
and only for unrecognized resource types with no usable elements is the
column list exactly those two; the `where` clause is tied to the
caller-supplied profile URL. -/
theorem fallback_starts_with_standard_columns :
    (∀ rt es, (fallbackColumns rt es).take 2
        = [⟨"id", "getResourceKey()"⟩, ⟨"resource_type", "resourceType"⟩])
    ∧ fallbackColumns "Basic" []
        = [⟨"id", "getResourceKey()"⟩, ⟨"resource_type", "resourceType"⟩]
    ∧ fallbackWherePath "http://example.org/p"
        = "meta.profile.contains(\x27http://example.org/p\x27)" :=
  ⟨fun _ _ => rfl, rfl, rfl⟩

/-- C9, counterexample: `{"a":[1]}` is well-formed; removing its trailing
`}` and `]` leaves `{"a":[1`, whose repair appends the missing `}` BEFORE
the missing `]`, producing `{"a":[1}]` — which does not parse at all. -/
theorem repair_object_ending_array_unparseable :
    parseJson "\x7b\"a\":[1]\x7d" = some (JVal.jobj [("a", JVal.jarr [JVal.jnum 1])])
    ∧ fixJson "\x7b\"a\":[1" = "\x7b\"a\":[1\x7d]"
    ∧ parseJson (fixJson "\x7b\"a\":[1") = none :=
  ⟨rfl, rfl, rfl⟩

/-- C9, amended: the repair restores parseability and round-trips exactly
when the removed closers are a `}` followed by `]` — e.g. for the
array-of-objects document `[{"a":1}]` — because the fixup appends all
missing braces before all missing brackets. -/
theorem repair_array_of_objects_roundtrip :
    fixJson "[\x7b\"a\":1" = "[\x7b\"a\":1\x7d]"
    ∧ parseJson (fixJson "[\x7b\"a\":1") = parseJson "[\x7b\"a\":1\x7d]"
    ∧ parseJson "[\x7b\"a\":1\x7d]" = some (JVal.jarr [JVal.jobj [("a", JVal.jnum 1)]]) :=
  ⟨rfl, rfl, rfl⟩
